import Mathlib

/-!
Verification of the Glimps semantic-memory core against its specification.

The TypeScript source is shallowly embedded: machine timestamps are `Int`
milliseconds since the epoch, JavaScript numbers that carry fractional data
(confidence scores, coordinates, minute counts) are exact rationals `ℚ`,
strings are Lean `String` (lower-cased pattern matching works on `List Char`),
and nullable values are `Option`.  Floating-point rounding is not modelled:
every arithmetic step of the source is reproduced exactly over `ℚ`/`Int`.

The transcendental Haversine distance (`Math.sin`/`Math.cos`/`Math.atan2`)
cannot be computed over `ℚ`; the services that merely *compare* a distance
against a threshold are therefore parameterised by the distance function
`dist : ℚ → ℚ → ℚ → ℚ → ℚ`, and the real-valued formula itself is embedded
separately as `calculateDistance : … → ℝ` for the statements that need the
actual geometry.  External collaborators (LLM synthesis, embedding service,
similarity index) are parameters, exactly as the spec's §6 treats them.
-/

namespace Glimps

/-- Milliseconds in one day, `1000 * 60 * 60 * 24`. -/
def dayMs : Int := 86400000

/-- JavaScript truthiness of an optional numeric field: `undefined`, `null`
and `0` are falsy, every other number is truthy. -/
def truthyNum (o : Option ℚ) : Bool :=
  match o with
  | some v => decide (v ≠ 0)
  | none => false

/-- JavaScript truthiness of an optional string field: `undefined`, `null`
and the empty string are falsy. -/
def truthyStr (o : Option String) : Bool :=
  match o with
  | some s => decide (s ≠ "")
  | none => false

/-- JavaScript `a || d` on an optional numeric parameter: the default is used
when the value is absent or falsy (so an explicit `0` also falls back). -/
def jsOr (o : Option ℚ) (d : ℚ) : ℚ :=
  match o with
  | some v => if v = 0 then d else v
  | none => d

/-- First non-`none` of two options, modelling SQL `COALESCE(a, b)` and the
JavaScript `a ?? b` operator. -/
def orOpt (a b : Option α) : Option α :=
  match a with
  | some v => some v
  | none => b

/-- Lower-cased character data of a string, modelling
`str.toLowerCase()` for the ASCII text the services match on. -/
def lowerData (s : String) : List Char :=
  s.data.map Char.toLower

/-- Substring test on character lists, modelling JavaScript
`haystack.includes(pat)`. -/
def containsSubstring (pat : List Char) : List Char → Bool
  | [] => pat.isEmpty
  | c :: t => pat.isPrefixOf (c :: t) || containsSubstring pat t

/-- Occurrence counts of the names in `l`, kept in first-seen order — the
iteration order of a JavaScript `Map` built by repeated `set`. -/
def bumpCount (name : String) : List (String × Nat) → List (String × Nat)
  | [] => [(name, 1)]
  | (n, c) :: t => if n = name then (n, c + 1) :: t else (n, c) :: bumpCount name t

/-- Fold a list of names into insertion-ordered occurrence counts. -/
def countsInOrder (l : List String) : List (String × Nat) :=
  l.foldl (fun acc n => bumpCount n acc) []

/-- The most frequent name under a strict `count > maxCount` scan starting
from `maxCount = 0`, i.e. the first-seen name among the maxima — exactly the
`forEach` scan the source performs over its count map. -/
def mostFrequentName (counts : List (String × Nat)) : Option String :=
  (counts.foldl (fun best p => if best.2 < p.2 then (some p.1, p.2) else best)
    ((none : Option String), 0)).1

/-- JavaScript `Math.round`: round half away from zero is `Math.round`'s
half-up behaviour for the non-negative confidences it is applied to; we model
it as `⌊q + 1/2⌋`. -/
def jsRound (q : ℚ) : Int := ⌊q + 1 / 2⌋

/-- A memory as the clustering/formation services see it: the stored row with
the location fields resolved from `memory_context`.  `capturedAt` is the
capture timestamp in epoch milliseconds (named `recordedAt` in the older
clustering-service source generation — both denote the capture time). -/
structure Memory where
  id : String
  userId : String
  capturedAt : Int
  latitude : Option ℚ
  longitude : Option ℚ
  locationName : Option String
deriving DecidableEq

/-- A `memory_context` row (`0..1` per memory). -/
structure MemoryContextRow where
  memoryId : String
  userNote : Option String
  locationName : Option String
  latitude : Option ℚ
  longitude : Option ℚ
  confirmed : Bool
deriving DecidableEq

/-- A `memory_people` row. -/
structure PersonRow where
  memoryId : String
  personName : String
  confidence : Option ℚ
  confirmed : Bool
deriving DecidableEq

/-- Origin of a tag: AI-inferred or user-asserted. -/
inductive TagOrigin where
  | ai
  | user
deriving DecidableEq

/-- A `memory_tags` row. -/
structure TagRow where
  memoryId : String
  tag : String
  confidence : Option ℚ
  origin : TagOrigin
deriving DecidableEq

/-- An `events` row. -/
structure Event where
  id : String
  userId : String
  startTime : Int
  endTime : Int
  title : String
  summary : Option String
  locationName : Option String
  locationLat : Option ℚ
  locationLng : Option ℚ
  confidenceScore : ℚ
  createdAt : Int
  updatedAt : Int
deriving DecidableEq

/-- Relationship type of a memory-event link. -/
inductive RelationshipType where
  | primary
  | supporting
  | context
deriving DecidableEq

/-- A `memory_event_links` row; list position models `created_at` order. -/
structure MemoryEventLink where
  memoryId : String
  eventId : String
  relationshipType : RelationshipType
deriving DecidableEq

namespace EventClusteringService

/-- Result of `analyzeCluster`. -/
structure ClusterResult where
  clusterMemories : List Memory
  isTightCluster : Bool
  clusterConfidence : ℚ
deriving DecidableEq

/-- Embeds `EventClusteringService.findNearbyMemories`.  `dist` abstracts the
float Haversine `calculateDistance` (compared against the threshold only when
all four coordinates are JavaScript-truthy, i.e. present and non-zero —
`targetMemory.latitude && targetMemory.longitude && memory.latitude &&
memory.longitude`).  The optional params default via `||` (so `0` falls back
too): time window 90 minutes, distance threshold 150 meters. -/
def findNearbyMemories (dist : ℚ → ℚ → ℚ → ℚ → ℚ) (targetMemory : Memory)
    (allMemories : List Memory)
    (timeWindowMinutes distanceThresholdMeters : Option ℚ) : List Memory :=
  let timeWindow := jsOr timeWindowMinutes 90
  let distanceThreshold := jsOr distanceThresholdMeters 150
  let targetTime := targetMemory.capturedAt
  let timeWindowMs := timeWindow * 60 * 1000
  allMemories.filter fun memory =>
    if memory.id = targetMemory.id then false
    else
      let timeDiff : ℚ := |((memory.capturedAt : ℚ)) - (targetTime : ℚ)|
      if timeWindowMs < timeDiff then false
      else if truthyNum targetMemory.latitude && truthyNum targetMemory.longitude
          && truthyNum memory.latitude && truthyNum memory.longitude then
        if distanceThreshold <
            dist (targetMemory.latitude.getD 0) (targetMemory.longitude.getD 0)
              (memory.latitude.getD 0) (memory.longitude.getD 0) then false
        else true
      else true

/-- Maximum pairwise distance over a list, the nested `i < j` loop of
`analyzeCluster` accumulating `Math.max` from `0`. -/
def maxPairwiseDist (dist : ℚ → ℚ → ℚ → ℚ → ℚ) : List Memory → ℚ
  | [] => 0
  | m :: rest =>
    max (rest.foldl
          (fun acc n =>
            max acc (dist (m.latitude.getD 0) (m.longitude.getD 0)
              (n.latitude.getD 0) (n.longitude.getD 0))) 0)
      (maxPairwiseDist dist rest)

/-- Embeds `EventClusteringService.analyzeCluster`: confidence accumulation
over cluster size, time span (sorted capture times, last minus first, in
minutes) and location spread (members whose coordinates are truthy), capped
at `1.0`; `isTightCluster` iff the confidence reaches `0.7`.  The source
computes `maxDistance` only when at least two members carry a location; for
fewer members the nested loop leaves it at `0`, which `maxPairwiseDist`
reproduces, so it is computed unconditionally here. -/
def analyzeCluster (dist : ℚ → ℚ → ℚ → ℚ → ℚ) (memories : List Memory) :
    ClusterResult :=
  if memories.length = 0 then ⟨[], false, 0⟩
  else if memories.length = 1 then ⟨memories, true, 0.7⟩
  else
    let times := (memories.map (·.capturedAt)).insertionSort (· ≤ ·)
    let timeSpanMinutes : ℚ := ((times.getLastD 0 - times.headD 0 : Int) : ℚ) / (60 * 1000)
    let memoriesWithLocation :=
      memories.filter fun m => truthyNum m.latitude && truthyNum m.longitude
    let maxDistance := maxPairwiseDist dist memoriesWithLocation
    let c1 : ℚ := 0.5
    let c2 := if 3 ≤ memories.length then c1 + 0.2 else c1
    let c3 := if 5 ≤ memories.length then c2 + 0.1 else c2
    let c4 :=
      if timeSpanMinutes ≤ 30 then c3 + 0.2
      else if timeSpanMinutes ≤ 60 then c3 + 0.1
      else c3
    let c5 :=
      if 2 ≤ memoriesWithLocation.length then
        if maxDistance ≤ 50 then c4 + 0.2
        else if maxDistance ≤ 100 then c4 + 0.1
        else c4
      else c4
    let confidence := min c5 1
    ⟨memories, decide ((0.7 : ℚ) ≤ confidence), confidence⟩

/-- Output of `extractClusterLocation`. -/
structure ClusterLocation where
  locationName : Option String
  latitude : Option ℚ
  longitude : Option ℚ
deriving DecidableEq

/-- Embeds `EventClusteringService.extractClusterLocation`: most common
truthy place name among coordinate-bearing members (ties kept at the
first-seen name), coordinates the arithmetic centroid of those members. -/
def extractClusterLocation (memories : List Memory) : ClusterLocation :=
  let memoriesWithLocation :=
    memories.filter fun m => truthyNum m.latitude && truthyNum m.longitude
  if memoriesWithLocation.length = 0 then ⟨none, none, none⟩
  else
    let locationNames :=
      (memoriesWithLocation.map (·.locationName)).filterMap fun o =>
        if truthyStr o then o else none
    let mostCommonLocation := mostFrequentName (countsInOrder locationNames)
    let avgLat :=
      (memoriesWithLocation.foldl (fun s m => s + m.latitude.getD 0) 0) /
        (memoriesWithLocation.length : ℚ)
    let avgLng :=
      (memoriesWithLocation.foldl (fun s m => s + m.longitude.getD 0) 0) /
        (memoriesWithLocation.length : ℚ)
    ⟨mostCommonLocation, some avgLat, some avgLng⟩

end EventClusteringService

namespace HybridScorer

/-- Input of `hybridScore` (`ScorerInput` in the source). -/
structure ScorerInput where
  memory : Memory
  embeddingSimilarity : ℚ
  context : Option MemoryContextRow
  tags : List TagRow
  people : List PersonRow
  referenceTime : Option Int

/-- Output of `hybridScore` with its explainability breakdown. -/
structure ScorerOutput where
  score : ℚ
  embedding : ℚ
  temporal : ℚ
  place : ℚ
  people : ℚ
  tags : ℚ
deriving DecidableEq

/-- Embeds `hybridScore` (`src/services/retrieval/hybridScorer.ts`):
`0.45·embed + 0.20·temporal + 0.20·place + 0.10·people + 0.05·tags`, where
`embed` is the similarity clamped to `[0,1]`, `temporal` buckets the distance
between capture time and reference time (defaulting to `now`), and
place/people/tags are nullish-presence indicators (`!= null` checks — an
explicit `0` coordinate or empty string still counts as present). -/
def hybridScore (nowMs : Int) (input : ScorerInput) : ScorerOutput :=
  let embed := max 0 (min 1 input.embeddingSimilarity)
  let refTime := input.referenceTime.getD nowMs
  let memTime := input.memory.capturedAt
  let diffDays : ℚ := |((refTime : ℚ)) - (memTime : ℚ)| / (24 * 60 * 60 * 1000)
  let temporal : ℚ :=
    if diffDays ≤ 1 then 1
    else if diffDays ≤ 7 then 0.7
    else if diffDays ≤ 30 then 0.3
    else 0
  let place : ℚ :=
    match input.context with
    | some c =>
      if c.locationName.isSome || (c.latitude.isSome && c.longitude.isSome) then 1 else 0
    | none => 0
  let people : ℚ := if 0 < input.people.length then 1 else 0
  let tags : ℚ := if 0 < input.tags.length then 1 else 0
  { score := 0.45 * embed + 0.2 * temporal + 0.2 * place + 0.1 * people + 0.05 * tags
    embedding := 0.45 * embed
    temporal := 0.2 * temporal
    place := 0.2 * place
    people := 0.1 * people
    tags := 0.05 * tags }

end HybridScorer

namespace TemporalParser

/-- Symbolic date value: the parser's output dates are JavaScript `Date`
calendar computations relative to `now`; we keep them symbolic so the pure
string-processing logic stays exact.  `genericOrNow s` stands for
`new Date(s)` when that parses, else `now`. -/
inductive DateExpr where
  | now
  | minusDays (base : DateExpr) (n : Nat)
  | plusDays (base : DateExpr) (n : Nat)
  | minusMonths (base : DateExpr) (n : Nat)
  | minusYears (base : DateExpr) (n : Nat)
  | startOfWeek
  | firstOfLastMonth
  | lastDayOfPrevMonth
  | firstOfThisMonth
  | genericOrNow (s : List Char)
deriving DecidableEq

/-- Temporal intent type. -/
inductive TIType where
  | first
  | last
  | before
  | after
  | around
  | between
  | recent
  | none
deriving DecidableEq

/-- Sort order attached to a temporal intent. -/
inductive SortOrder where
  | asc
  | desc
deriving DecidableEq

/-- The parser's structured result (`TemporalIntent`). -/
structure TemporalIntent where
  type : TIType
  referenceDate : Option DateExpr
  startDate : Option DateExpr
  endDate : Option DateExpr
  phrase : Option (List Char)
  sortOrder : SortOrder
deriving DecidableEq

/-- JavaScript whitespace trim on character data. -/
def trimChars (l : List Char) : List Char :=
  (l.dropWhile Char.isWhitespace).reverse.dropWhile Char.isWhitespace |>.reverse

/-- Embeds `matchesPattern`: does the query contain any of the patterns? -/
def matchesPattern (query : List Char) (patterns : List (List Char)) : Bool :=
  patterns.any fun pattern => containsSubstring pattern query

/-- Embeds `extractPhrase`: the first listed pattern the query contains. -/
def extractPhrase (query : List Char) (patterns : List (List Char)) :
    Option (List Char) :=
  patterns.find? fun pattern => containsSubstring pattern query

/-- Lazy capture of `(.+?)(?:\?|$)`: at least one character, then the
shortest extension up to the next `?` or the end of the string. -/
def lazyCapture : List Char → Option (List Char)
  | [] => none
  | c :: t => some (c :: t.takeWhile (· ≠ '?'))

/-- Scan for the first position where `kw` matches and the lazy capture after
it succeeds — the behaviour of `query.match(/kw (.+?)(?:\?|$)/)` for the
keyword-plus-capture regexes of the parser. -/
def scanCapture (kw : List Char) : List Char → Option (List Char)
  | [] => Option.none
  | c :: t =>
    if kw.isPrefixOf (c :: t) then
      match lazyCapture ((c :: t).drop kw.length) with
      | some cap => some cap
      | none => scanCapture kw t
    else scanCapture kw t

/-- Scan trying several alternative keywords at each position, modelling the
regex alternation `(?:around|near|about) (.+?)(?:\?|$)`. -/
def scanCaptureAny (kws : List (List Char)) : List Char → Option (List Char)
  | [] => Option.none
  | c :: t =>
    match kws.firstM fun kw =>
        if kw.isPrefixOf (c :: t) then lazyCapture ((c :: t).drop kw.length)
        else Option.none with
    | some cap => some cap
    | none => scanCaptureAny kws t

/-- Digits-to-number, for the `(\d+)` capture of the "last N days" regex. -/
def natFromDigits (l : List Char) : Nat :=
  l.foldl (fun n c => n * 10 + (c.toNat - 48)) 0

/-- Scan for `(?:last|past) (\d+) days?`: a keyword, a non-empty greedy digit
run, then a space and `day`.  Returns the captured number. -/
def scanLastDays : List Char → Option Nat
  | [] => Option.none
  | c :: t =>
    match ["last ".data, "past ".data].firstM fun kw =>
        if kw.isPrefixOf (c :: t) then
          let rest := (c :: t).drop kw.length
          let digits := rest.takeWhile Char.isDigit
          if digits ≠ [] ∧ " day".data.isPrefixOf (rest.drop digits.length) then
            some (natFromDigits digits)
          else Option.none
        else Option.none with
    | some n => some n
    | none => scanLastDays t

/-- Embeds `parseRelativeDate` over symbolic dates: exact `today`/
`yesterday`/`tomorrow`, substring `last/this week|month|year`, and the
generic `new Date(dateStr)` fallback (symbolic, defaulting to now). -/
def parseRelativeDate (dateStr : List Char) : DateExpr :=
  let lowerStr := (trimChars dateStr).map Char.toLower
  if lowerStr = "today".data then .now
  else if lowerStr = "yesterday".data then .minusDays .now 1
  else if lowerStr = "tomorrow".data then .plusDays .now 1
  else if containsSubstring "last week".data lowerStr then .minusDays .now 7
  else if containsSubstring "this week".data lowerStr then .now
  else if containsSubstring "last month".data lowerStr then .minusMonths .now 1
  else if containsSubstring "this month".data lowerStr then .now
  else if containsSubstring "last year".data lowerStr then .minusYears .now 1
  else .genericOrNow dateStr

/-- Result of `parseTimeRange`. -/
structure TimeRange where
  startDate : DateExpr
  endDate : DateExpr
  phrase : List Char
deriving DecidableEq

/-- Embeds `parseTimeRange`: "last N days", "last week", "this week",
"last month", "this month" (in that order), else no range. -/
def parseTimeRange (query : List Char) : Option TimeRange :=
  match scanLastDays query with
  | some days =>
    some ⟨.minusDays .now days, .now,
      "last ".data ++ (toString days).data ++ " days".data⟩
  | none =>
    if containsSubstring "last week".data query then
      some ⟨.minusDays .now 7, .now, "last week".data⟩
    else if containsSubstring "this week".data query then
      some ⟨.startOfWeek, .now, "this week".data⟩
    else if containsSubstring "last month".data query then
      some ⟨.firstOfLastMonth, .lastDayOfPrevMonth, "last month".data⟩
    else if containsSubstring "this month".data query then
      some ⟨.firstOfThisMonth, .now, "this month".data⟩
    else Option.none

/-- Patterns of the "first time" rule. -/
def firstPatterns : List (List Char) :=
  ["first time".data, "earliest".data, "when did i first".data, "initial".data]

/-- Patterns of the "last time" rule. -/
def lastPatterns : List (List Char) :=
  ["last time".data, "most recent".data, "latest".data, "when did i last".data]

/-- Patterns of the "recently" rule. -/
def recentPatterns : List (List Char) :=
  ["recently".data, "lately".data, "these days".data, "this week".data]

/-- Embeds `TemporalParser.parse`: lower-case the query, then apply the
pattern rules in priority order — first/earliest, last/most-recent,
`before X`, `after X`, `around|near|about X`, explicit ranges, recently —
defaulting to no temporal intent sorted newest-first. -/
def parse (query : String) : TemporalIntent :=
  let lowerQuery := lowerData query
  if matchesPattern lowerQuery firstPatterns then
    { type := .first, referenceDate := none, startDate := none, endDate := none
      phrase := extractPhrase lowerQuery ["first time".data, "earliest".data]
      sortOrder := .asc }
  else if matchesPattern lowerQuery lastPatterns then
    { type := .last, referenceDate := none, startDate := none, endDate := none
      phrase := extractPhrase lowerQuery
        ["last time".data, "most recent".data, "latest".data]
      sortOrder := .desc }
  else
    match scanCapture "before ".data lowerQuery with
    | some dateStr =>
      let parsedDate := parseRelativeDate dateStr
      { type := .before, referenceDate := some parsedDate, startDate := none
        endDate := some parsedDate, phrase := some ("before ".data ++ dateStr)
        sortOrder := .desc }
    | none =>
      match scanCapture "after ".data lowerQuery with
      | some dateStr =>
        let parsedDate := parseRelativeDate dateStr
        { type := .after, referenceDate := some parsedDate
          startDate := some parsedDate, endDate := none
          phrase := some ("after ".data ++ dateStr), sortOrder := .asc }
      | none =>
        match scanCaptureAny ["around ".data, "near ".data, "about ".data]
            lowerQuery with
        | some dateStr =>
          let centerDate := parseRelativeDate dateStr
          { type := .around, referenceDate := some centerDate
            startDate := some (.minusDays centerDate 3)
            endDate := some (.plusDays centerDate 3)
            phrase := some ("around ".data ++ dateStr), sortOrder := .desc }
        | none =>
          match parseTimeRange lowerQuery with
          | some timeRange =>
            { type := .between, referenceDate := none
              startDate := some timeRange.startDate
              endDate := some timeRange.endDate
              phrase := some timeRange.phrase, sortOrder := .desc }
          | none =>
            if matchesPattern lowerQuery recentPatterns then
              { type := .recent, referenceDate := none
                startDate := some (.minusDays .now 7), endDate := some .now
                phrase := some "recently".data, sortOrder := .desc }
            else
              { type := .none, referenceDate := none, startDate := none
                endDate := none, phrase := none, sortOrder := .desc }

/-- Does the query trigger any of the parser's pattern rules?  This is the
disjunction of exactly the guards `parse` tests, used to state the default
(no temporal intent) case. -/
def matchesAnyTemporalPattern (query : String) : Bool :=
  let lowerQuery := lowerData query
  matchesPattern lowerQuery firstPatterns ||
  matchesPattern lowerQuery lastPatterns ||
  (scanCapture "before ".data lowerQuery).isSome ||
  (scanCapture "after ".data lowerQuery).isSome ||
  (scanCaptureAny ["around ".data, "near ".data, "about ".data] lowerQuery).isSome ||
  (parseTimeRange lowerQuery).isSome ||
  matchesPattern lowerQuery recentPatterns

end TemporalParser

namespace ResurfacingService

/-- Result of resurfacing selection. -/
structure ResurfacingResult where
  event : Event
  reason : String
  score : Int
  notificationText : String

/-- A scored candidate (`{ event, score, reason }` in the source). -/
structure ScoredEvent where
  event : Event
  score : Int
  reason : String

/-- The fixed emotional-keyword list of the resurfacing scorer. -/
def emotionalKeywords : List String :=
  ["happy", "amazing", "wonderful", "love", "beautiful", "excited",
   "grateful", "special", "milestone", "first", "last", "birthday",
   "celebration", "wedding", "graduation", "party", "anniversary",
   "trip", "vacation", "visit", "meeting"]

/-- Anniversary component of the resurfacing score (step 1 of the scorer):
`daysSince % 365 === 0 && daysSince >= 365` → 120;
`Math.abs((daysSince % 365) - 365) <= 3 && daysSince >= 365` → 100;
`daysSince % 30 === 0 && daysSince >= 30` → 50;
`daysSince % 7 === 0 && daysSince >= 14` → 25; else 0. -/
def anniversaryBonus (daysSince : Int) : Int :=
  if daysSince % 365 = 0 ∧ 365 ≤ daysSince then 120
  else if |daysSince % 365 - 365| ≤ 3 ∧ 365 ≤ daysSince then 100
  else if daysSince % 30 = 0 ∧ 30 ≤ daysSince then 50
  else if daysSince % 7 = 0 ∧ 14 ≤ daysSince then 25
  else 0

/-- Days since the event started: `Math.floor((now - start) / dayMs)`. -/
def daysSinceEvent (now : Int) (e : Event) : Int :=
  Int.fdiv (now - e.startTime) dayMs

/-- Pluralising helper for the reason strings: `n > 1 ? 's' : ''`. -/
def plural (n : Int) : String := if 1 < n then "s" else ""

/-- Embeds the per-event scoring closure of `selectEventToResurf`:
anniversary bonus, age bucket, `round(confidence × 30)`, summary richness,
location presence, emotional keywords (8 points each) and ≥2h duration,
together with the human-readable reason fragments the source accumulates. -/
def scoreEvent (now : Int) (event : Event) : ScoredEvent :=
  let daysSince := daysSinceEvent now event
  let annB := anniversaryBonus daysSince
  let annReasons : List String :=
    if daysSince % 365 = 0 ∧ 365 ≤ daysSince then
      [toString (daysSince / 365) ++ " year anniversary"]
    else if |daysSince % 365 - 365| ≤ 3 ∧ 365 ≤ daysSince then
      let years := Int.fdiv daysSince 365
      ["Nearly " ++ toString years ++ " year" ++ plural years ++ " ago"]
    else if daysSince % 30 = 0 ∧ 30 ≤ daysSince then
      [toString (daysSince / 30) ++ " months ago"]
    else if daysSince % 7 = 0 ∧ 14 ≤ daysSince then
      [toString (daysSince / 7) ++ " weeks ago"]
    else []
  let ageB : Int :=
    if 14 ≤ daysSince ∧ daysSince ≤ 180 then 40
    else if 180 < daysSince ∧ daysSince ≤ 365 then 30
    else if 365 < daysSince then 20
    else 0
  let ageReasons : List String :=
    if 14 ≤ daysSince ∧ daysSince ≤ 180 then ["Perfect age for reflection"] else []
  let confidenceBonus := jsRound (event.confidenceScore * 30)
  let confReasons : List String :=
    if (0.8 : ℚ) ≤ event.confidenceScore then ["High-quality event"] else []
  let summaryLength := (event.summary.getD "").length
  let richB : Int := if 150 < summaryLength then 20 else if 50 < summaryLength then 10 else 0
  let richReasons : List String := if 150 < summaryLength then ["Rich experience"] else []
  let locB : Int := if truthyStr event.locationName then 15 else 0
  let locReasons : List String :=
    if truthyStr event.locationName then ["From " ++ event.locationName.getD ""] else []
  let textToCheck := lowerData (event.title ++ " " ++ event.summary.getD "")
  let emotionalCount :=
    (emotionalKeywords.filter fun keyword => containsSubstring keyword.data textToCheck).length
  let emoB : Int := if 0 < emotionalCount then emotionalCount * 8 else 0
  let emoReasons : List String :=
    if 0 < emotionalCount then ["Emotionally significant"] else []
  let durationMs := event.endTime - event.startTime
  let durationHours : ℚ := (durationMs : ℚ) / (1000 * 60 * 60)
  let durB : Int := if 2 ≤ durationHours then 10 else 0
  let durReasons : List String := if 2 ≤ durationHours then ["Extended experience"] else []
  let reasons := annReasons ++ ageReasons ++ confReasons ++ richReasons ++
    locReasons ++ emoReasons ++ durReasons
  { event := event
    score := annB + ageB + confidenceBonus + richB + locB + emoB + durB
    reason := if reasons.isEmpty then "Worth revisiting"
      else String.intercalate ", " reasons }

/-- Embeds `generateNotificationText`: a relative-time phrase from the same
anniversary/age buckets, the title, and a summary snippet truncated to 77
characters plus an ellipsis when longer than 80. -/
def generateNotificationText (now : Int) (event : Event) : String :=
  let daysSince := daysSinceEvent now event
  let timePhrase :=
    if daysSince % 365 = 0 ∧ 365 ≤ daysSince then
      let years := daysSince / 365
      toString years ++ " year" ++ plural years ++ " ago today"
    else if 365 ≤ daysSince then
      let years := Int.fdiv daysSince 365
      toString years ++ " year" ++ plural years ++ " ago"
    else if 30 ≤ daysSince then
      let months := Int.fdiv daysSince 30
      toString months ++ " month" ++ plural months ++ " ago"
    else if 7 ≤ daysSince then
      let weeks := Int.fdiv daysSince 7
      toString weeks ++ " week" ++ plural weeks ++ " ago"
    else toString daysSince ++ " day" ++ plural daysSince ++ " ago"
  let text := timePhrase ++ ": " ++ event.title
  match event.summary with
  | some summary =>
    if truthyStr (some summary) then
      let summarySnippet :=
        if 80 < summary.length then summary.take 77 ++ "..." else summary
      text ++ "\n\n" ++ summarySnippet
    else text
  | none => text

/-- Embeds `ResurfacingService.selectEventToResurf`.  The repository read
`eventRepository.listRecent(500, userId)` is the `events` argument: `.error`
models a rejected query, which the surrounding `try/catch` turns into `null`.
`now` is the clock and `rand` the `Math.random()` draw (in `[0,1)`).
Eligibility keeps events strictly older than seven days; candidates are
scored, sorted by score descending (JavaScript's stable sort), and the
diversity guardrail compares the start times of the first and last of the
top (at most) three *in score order* — `top3[0].startTime − top3[last]
.startTime < 24h` — picking `top3[⌊rand·len⌋]` when it fires. -/
def selectEventToResurf (events : Except String (List Event)) (now : Int)
    (rand : ℚ) : Option ResurfacingResult :=
  match events with
  | .error _ => none
  | .ok allEvents =>
    let sevenDaysAgo := now - 7 * dayMs
    let eligibleEvents := allEvents.filter fun e => e.startTime < sevenDaysAgo
    if eligibleEvents.isEmpty then none
    else
      let scoredEvents := eligibleEvents.map (scoreEvent now)
      let sorted := scoredEvents.insertionSort fun a b => b.score ≤ a.score
      match sorted with
      | [] => none
      | s0 :: srest =>
        let top3 := (s0 :: srest).take 3
        let oldest := (top3.getLastD s0).event.startTime
        let newest := (top3.headD s0).event.startTime
        let selected :=
          if 2 ≤ top3.length ∧ newest - oldest < 24 * 60 * 60 * 1000 then
            top3.getD (Int.toNat ⌊rand * (top3.length : ℚ)⌋) s0
          else s0
        some { event := selected.event, reason := selected.reason
               score := selected.score
               notificationText := generateNotificationText now selected.event }

end ResurfacingService

namespace MemoryContextRepository

/-- Input of `create`/`upsert` on the memory-context repository
(`CreateMemoryContextInput`, with the update's optional fields). -/
structure CreateMemoryContextInput where
  memoryId : String
  userNote : Option String
  locationName : Option String
  latitude : Option ℚ
  longitude : Option ℚ
  confirmed : Option Bool
deriving DecidableEq

/-- Embeds `MemoryContextRepository.upsert`, the SQL
`INSERT … ON CONFLICT (memory_id) DO UPDATE SET col = COALESCE(EXCLUDED.col,
memory_context.col)`.  The bound values are the input fields with `?? null`,
except `confirmed`, bound as `input.confirmed ?? false` — so the excluded
`confirmed` is never NULL and always wins the `COALESCE`.  On a fresh
memory id the row is inserted with those values. -/
def upsert (rows : List MemoryContextRow) (input : CreateMemoryContextInput) :
    List MemoryContextRow :=
  if rows.any (fun r => r.memoryId = input.memoryId) then
    rows.map fun r =>
      if r.memoryId = input.memoryId then
        { memoryId := r.memoryId
          userNote := orOpt input.userNote r.userNote
          locationName := orOpt input.locationName r.locationName
          latitude := orOpt input.latitude r.latitude
          longitude := orOpt input.longitude r.longitude
          confirmed := input.confirmed.getD false }
      else r
  else
    rows ++ [{ memoryId := input.memoryId
               userNote := input.userNote
               locationName := input.locationName
               latitude := input.latitude
               longitude := input.longitude
               confirmed := input.confirmed.getD false }]

end MemoryContextRepository

namespace ContextInferenceService

/-- The inferred place triple of `inferPlace`. -/
structure InferredPlace where
  locationName : Option String
  latitude : Option ℚ
  longitude : Option ℚ
deriving DecidableEq

/-- The persistence state context inference reads and writes: context rows,
people rows and tag rows (each keyed by memory id). -/
structure CtxStore where
  contexts : List MemoryContextRow
  people : List PersonRow
  tags : List TagRow
deriving DecidableEq

/-- Embeds `inferPlace`: among neighbour contexts with a non-empty place
name or full coordinates, the most frequent truthy name (first-seen on ties)
and the centroid of the coordinate-bearing ones; `none` when no neighbour
qualifies or when neither a name nor coordinates result. -/
def inferPlace (contexts : List MemoryContextRow) : Option InferredPlace :=
  let withLocation := contexts.filter fun c =>
    (c.locationName.isSome && decide (c.locationName ≠ some "")) ||
      (c.latitude.isSome && c.longitude.isSome)
  if withLocation.length < 1 then none
  else
    let names := withLocation.filterMap fun c =>
      if truthyStr c.locationName then c.locationName else none
    let locationName := mostFrequentName (countsInOrder names)
    let coords := withLocation.filter fun c => c.latitude.isSome && c.longitude.isSome
    let countCoords := coords.length
    let latitude : Option ℚ :=
      if 0 < countCoords then
        some ((coords.foldl (fun s c => s + c.latitude.getD 0) 0) / (countCoords : ℚ))
      else none
    let longitude : Option ℚ :=
      if 0 < countCoords then
        some ((coords.foldl (fun s c => s + c.longitude.getD 0) 0) / (countCoords : ℚ))
      else none
    if locationName = none ∧ latitude = none then none
    else some ⟨locationName, latitude, longitude⟩

/-- Confidence formula shared by people and tag inference:
`min(0.99, 0.5 + (count / 16) × 0.5)`. -/
def inferredConfidence (count : Nat) : ℚ :=
  min 0.99 (0.5 + ((count : ℚ) / 16) * 0.5)

/-- Embeds `inferPeople`: occurrence counts of trimmed person names across
the neighbours' people lists, keep counts ≥ 2, sort by count descending
(stable), take the top 5, and attach the confidence formula. -/
def inferPeople (peopleLists : List (List PersonRow)) : List (String × ℚ) :=
  let counts := countsInOrder
    ((peopleLists.flatMap fun l => l.map (·.personName.trim)).filter (· ≠ ""))
  let entries := ((counts.filter fun p => 2 ≤ p.2).insertionSort
    fun a b => b.2 ≤ a.2).take 5
  entries.map fun p => (p.1, inferredConfidence p.2)

/-- Embeds `inferTags`: the same pipeline over trimmed lower-cased tag text,
keep counts ≥ 2, top 10. -/
def inferTags (tagLists : List (List TagRow)) : List (String × ℚ) :=
  let counts := countsInOrder
    ((tagLists.flatMap fun l =>
        l.map fun t => String.mk (lowerData t.tag.trim)).filter (· ≠ ""))
  let entries := ((counts.filter fun p => 2 ≤ p.2).insertionSort
    fun a b => b.2 ≤ a.2).take 10
  entries.map fun p => (p.1, inferredConfidence p.2)

/-- Embeds `ContextInferenceService.inferAndStoreContext`.  The external
similarity index is abstracted: `hasEmbedding` is whether the memory has a
stored embedding, and `similar` is the id list `findSimilar` returned
(already owner-scoped by that collaborator).  The service drops the memory
itself, keeps 15 neighbours, gathers their context/tags/people, and stores:
the inferred place through `MemoryContextRepository.upsert` with
`confirmed: false`, and inferred people/tags as new unconfirmed/AI rows. -/
def inferAndStoreContext (hasEmbedding : Bool) (similar : List String)
    (memoryId : String) (store : CtxStore) : CtxStore :=
  if !hasEmbedding then store
  else
    let similarIds := (similar.filter (· ≠ memoryId)).take 15
    if similarIds.isEmpty then store
    else
      let contexts := similarIds.filterMap fun i =>
        store.contexts.find? fun r => r.memoryId = i
      let peopleLists := similarIds.map fun i =>
        store.people.filter fun r => r.memoryId = i
      let tagLists := similarIds.map fun i =>
        store.tags.filter fun r => r.memoryId = i
      let inferredPlace := inferPlace contexts
      let store1 :=
        match inferredPlace with
        | some p =>
          { store with contexts := (MemoryContextRepository.upsert store.contexts
              { memoryId := memoryId, userNote := none
                locationName := p.locationName, latitude := p.latitude
                longitude := p.longitude, confirmed := some false }) }
        | none => store
      let store2 :=
        { store1 with people := store1.people ++
            (inferPeople peopleLists).map fun (p : String × ℚ) =>
              ({ memoryId := memoryId, personName := p.1
                 confidence := some p.2, confirmed := false } : PersonRow) }
      { store2 with tags := store2.tags ++
          (inferTags tagLists).map fun (t : String × ℚ) =>
            ({ memoryId := memoryId, tag := t.1
               confidence := some t.2, origin := TagOrigin.ai } : TagRow) }

end ContextInferenceService

namespace EventFormationService

/-- Output of the external LLM synthesis (`EventSynthesis`). -/
structure EventSynthesis where
  title : String
  summary : String
  confidenceScore : ℚ

/-- Result of event formation (`FormationResult`). -/
structure FormationResult where
  event : Event
  isNewEvent : Bool
  linkedMemoryIds : List String

/-- The persistence state event formation reads and writes.  `memories` are
the stored rows (location unresolved), `contexts` the `memory_context` rows,
`events` and `links` the event graph, `eventEmbeddings` the generated event
vectors.  Link list order models `created_at` order. -/
structure FStore where
  memories : List Memory
  contexts : List MemoryContextRow
  events : List Event
  links : List MemoryEventLink
  eventEmbeddings : List (String × List ℚ)

/-- Resolve a memory's location fields from its `memory_context` row, the
`latitude/longitude/locationName: ctx.… ?? undefined` attachment performed by
`findByIdWithContextInternal` and `listRecentWithContextInternal`. -/
def attachContext (store : FStore) (m : Memory) : Memory :=
  match store.contexts.find? (fun r => r.memoryId = m.id) with
  | some ctx =>
    { m with latitude := ctx.latitude, longitude := ctx.longitude
             locationName := ctx.locationName }
  | none => m

/-- Embeds `MemoryRepository.listRecentWithContextInternal`:
`SELECT * FROM memories ORDER BY captured_at DESC LIMIT limit` — note there
is **no** `user_id` filter — with context attached. -/
def listRecentWithContextInternal (store : FStore) (limit : Nat) : List Memory :=
  ((store.memories.insertionSort fun a b => b.capturedAt ≤ a.capturedAt).take
    limit).map (attachContext store)

/-- Embeds `EventRepository.findByMemoryIdInternal`: the events joined to a
link row with the given memory id, ordered by `start_time DESC` — again with
no user scoping. -/
def findByMemoryIdInternal (store : FStore) (memoryId : String) : List Event :=
  (store.events.filter fun e =>
      store.links.any fun l => l.eventId = e.id ∧ l.memoryId = memoryId
    ).insertionSort fun a b => b.startTime ≤ a.startTime

/-- Embeds `EventSynthesisService.shouldUpdateEvent`: no update when a large
event (≥5 links) gains at most 2 memories, no update within one hour of the
last update (`(now − lastUpdated) / 3600000 < 1`), otherwise update iff the
growth `newCount / existingCount` exceeds 20% (a zero `existingCount` gives
JavaScript `Infinity`, which exceeds 0.2). -/
def shouldUpdateEvent (existingMemoryCount newMemoryCount : Nat)
    (lastUpdated now : Int) : Bool :=
  if 5 ≤ existingMemoryCount ∧ newMemoryCount ≤ 2 then false
  else
    let hoursSinceUpdate : ℚ := ((now - lastUpdated : Int) : ℚ) / (60 * 60 * 1000)
    if hoursSinceUpdate < 1 then false
    else if existingMemoryCount = 0 then true
    else decide ((0.2 : ℚ) < (newMemoryCount : ℚ) / (existingMemoryCount : ℚ))

/-- Fallback memory for the `memories[0]` accesses of `createNewEvent`; the
caller always passes a non-empty cluster (it contains the new memory). -/
def defaultMemory : Memory := ⟨"", "", 0, none, none, none⟩

/-- Embeds `EventFormationService.createNewEvent`: analyze the cluster,
synthesize (external `synth`), bound the event by min/max capture time, take
the extracted location and `max(clusterConfidence, synthesisConfidence)`,
owner = first cluster member's owner, link the first memory as primary and
the rest as supporting, and store an embedding of `title + "\n\n" + summary`
(external `embedF`).  The generated event id models the fresh UUID. -/
def createNewEvent (dist : ℚ → ℚ → ℚ → ℚ → ℚ)
    (synth : List Memory → Option String → Option String → EventSynthesis)
    (embedF : String → List ℚ) (store : FStore) (memories : List Memory)
    (now : Int) : FormationResult × FStore :=
  let cluster := EventClusteringService.analyzeCluster dist memories
  let synthesis := synth cluster.clusterMemories none none
  let times := memories.map (·.capturedAt)
  let startTime := times.min?.getD 0
  let endTime := times.max?.getD 0
  let location := EventClusteringService.extractClusterLocation memories
  let userId := (memories.headD defaultMemory).userId
  let event : Event :=
    { id := "evt" ++ toString store.events.length
      userId := userId, startTime := startTime, endTime := endTime
      title := synthesis.title, summary := some synthesis.summary
      locationName := location.locationName
      locationLat := location.latitude, locationLng := location.longitude
      confidenceScore := max cluster.clusterConfidence synthesis.confidenceScore
      createdAt := now, updatedAt := now }
  let linkRows := memories.map fun m =>
    ({ memoryId := m.id, eventId := event.id
       relationshipType :=
         if m.id = (memories.headD defaultMemory).id then RelationshipType.primary
         else RelationshipType.supporting } : MemoryEventLink)
  let embeddingText := event.title ++ "\n\n" ++ event.summary.getD ""
  let store1 :=
    { store with events := store.events ++ [event]
                 links := store.links ++ linkRows
                 eventEmbeddings := store.eventEmbeddings ++
                   [(event.id, embedF embeddingText)] }
  (⟨event, true, memories.map (·.id)⟩, store1)

/-- Embeds `EventFormationService.attachToExistingEvent`: return early when
the memory is already linked, otherwise link it as supporting and, when
`shouldUpdateEvent` fires, re-synthesize over the whole cluster, recompute the
time bounds, update the event (refreshing `updated_at`) and upsert its
embedding. -/
def attachToExistingEvent (synth : List Memory → Option String → Option String → EventSynthesis)
    (embedF : String → List ℚ) (store : FStore) (newMemory : Memory)
    (existingEvent : Event) (allClusterMemories : List Memory) (now : Int) :
    FormationResult × FStore :=
  let existingLinks := store.links.filter fun l => l.eventId = existingEvent.id
  let existingMemoryIds := existingLinks.map (·.memoryId)
  if newMemory.id ∈ existingMemoryIds then
    (⟨existingEvent, false, [newMemory.id]⟩, store)
  else
    let store1 :=
      { store with links := store.links ++
          [⟨newMemory.id, existingEvent.id, RelationshipType.supporting⟩] }
    let shouldUpd :=
      shouldUpdateEvent existingLinks.length 1 existingEvent.updatedAt now
    if shouldUpd then
      let synthesis :=
        synth allClusterMemories (some existingEvent.title) existingEvent.summary
      let times := allClusterMemories.map (·.capturedAt)
      let updatedEvent :=
        { existingEvent with
            startTime := times.min?.getD 0, endTime := times.max?.getD 0
            title := synthesis.title, summary := some synthesis.summary
            confidenceScore := synthesis.confidenceScore, updatedAt := now }
      let embeddingText := updatedEvent.title ++ "\n\n" ++ updatedEvent.summary.getD ""
      let store2 :=
        { store1 with
            events := store1.events.map fun e =>
              if e.id = existingEvent.id then updatedEvent else e
            eventEmbeddings :=
              if store1.eventEmbeddings.any fun p => p.1 = updatedEvent.id then
                store1.eventEmbeddings.map fun p =>
                  if p.1 = updatedEvent.id then (p.1, embedF embeddingText) else p
              else store1.eventEmbeddings ++ [(updatedEvent.id, embedF embeddingText)] }
      (⟨updatedEvent, false, [newMemory.id]⟩, store2)
    else (⟨existingEvent, false, [newMemory.id]⟩, store1)

/-- Embeds `EventFormationService.processMemory`: load the memory with
context (internal, no user check), take the 100 most recent memories **of
all owners** as the candidate pool, cluster, look up existing events *of the
first nearby memory only* (`findExistingEventsForMemories` queries
`memoryIds[0]`), and attach to the first such event or create a new one.
A missing memory (`NotFoundError`) is caught and yields `none`. -/
def processMemory (dist : ℚ → ℚ → ℚ → ℚ → ℚ)
    (synth : List Memory → Option String → Option String → EventSynthesis)
    (embedF : String → List ℚ) (store : FStore) (memoryId : String)
    (now : Int) : Option FormationResult × FStore :=
  match store.memories.find? (fun m => m.id = memoryId) with
  | none => (none, store)
  | some m0 =>
    let memory := attachContext store m0
    let recentMemories := listRecentWithContextInternal store 100
    let nearbyMemories :=
      EventClusteringService.findNearbyMemories dist memory recentMemories none none
    let clusterMemories := memory :: nearbyMemories
    let existingEvents :=
      match nearbyMemories.map (·.id) with
      | [] => []
      | mid :: _ => findByMemoryIdInternal store mid
    match existingEvents with
    | [] =>
      let r := createNewEvent dist synth embedF store clusterMemories now
      (some r.1, r.2)
    | ev :: _ =>
      let r := attachToExistingEvent synth embedF store memory ev clusterMemories now
      (some r.1, r.2)

end EventFormationService

/-- JavaScript `Math.atan2` on real arguments, by quadrant. -/
noncomputable def jsAtan2 (y x : ℝ) : ℝ :=
  if 0 < x then Real.arctan (y / x)
  else if x < 0 ∧ 0 ≤ y then Real.arctan (y / x) + Real.pi
  else if x < 0 ∧ y < 0 then Real.arctan (y / x) - Real.pi
  else if x = 0 ∧ 0 < y then Real.pi / 2
  else if x = 0 ∧ y < 0 then -(Real.pi / 2)
  else 0

/-- Embeds `EventClusteringService.calculateDistance`: great-circle distance
in meters by the Haversine formula with Earth radius `6371e3`, over the real
numbers (the source computes it in floating point). -/
noncomputable def calculateDistance (lat1 lon1 lat2 lon2 : ℚ) : ℝ :=
  let r : ℝ := 6371000
  let phi1 := (lat1 : ℝ) * Real.pi / 180
  let phi2 := (lat2 : ℝ) * Real.pi / 180
  let dphi := ((lat2 : ℝ) - (lat1 : ℝ)) * Real.pi / 180
  let dlam := ((lon2 : ℝ) - (lon1 : ℝ)) * Real.pi / 180
  let a := Real.sin (dphi / 2) * Real.sin (dphi / 2) +
    Real.cos phi1 * Real.cos phi2 * Real.sin (dlam / 2) * Real.sin (dlam / 2)
  let c := 2 * jsAtan2 (Real.sqrt a) (Real.sqrt (1 - a))
  r * c

/-! Concrete fixtures used by the witnesses and counterexamples below. -/

/-- A distance oracle that is never below any clustering threshold; used
where the guard under test must not depend on the distance value. -/
def distBig : ℚ → ℚ → ℚ → ℚ → ℚ := fun _ _ _ _ => 1000000

/-- A zero distance oracle (candidate memories in the formation fixtures
carry no coordinates, so it is never consulted). -/
def distZero : ℚ → ℚ → ℚ → ℚ → ℚ := fun _ _ _ _ => 0

/-- A fixed stand-in for the external LLM synthesis collaborator. -/
def synthFixed : List Memory → Option String → Option String →
    EventFormationService.EventSynthesis := fun _ _ _ => ⟨"t", "s", 0⟩

/-- A fixed stand-in for the external embedding collaborator. -/
def embedZero : String → List ℚ := fun _ => []

/-- Context row of memory `m1`: user-confirmed place "Home" at `(1, 2)`. -/
def ctxHome : MemoryContextRow := ⟨"m1", none, some "Home", some 1, some 2, true⟩

/-- Context row of neighbour `n1`: unconfirmed place "Office" at `(5, 6)`. -/
def ctxOffice : MemoryContextRow := ⟨"n1", none, some "Office", some 5, some 6, false⟩

/-- Store for the context-inference run: `m1` has a confirmed place, its
similar neighbour `n1` has a different place. -/
def c1Store : ContextInferenceService.CtxStore := ⟨[ctxHome, ctxOffice], [], []⟩

/-- Owner alice's newly completed memory (no coordinates). -/
def memA : Memory := ⟨"a0", "alice", 0, none, none, none⟩

/-- Owner bob's memory, captured ten minutes after alice's. -/
def memB : Memory := ⟨"b1", "bob", 600000, none, none, none⟩

/-- Bob's existing event, already linked to `b1`. -/
def eventB : Event :=
  ⟨"eb", "bob", 600000, 600000, "B event", none, none, none, none, 0, 0, 600000⟩

/-- Formation store containing both owners' data. -/
def storeAB : EventFormationService.FStore :=
  ⟨[memA, memB], [], [eventB], [⟨"b1", "eb", RelationshipType.primary⟩], []⟩

/-- The same store with bob's memory removed (his event untouched). -/
def storeA : EventFormationService.FStore :=
  ⟨[memA], [], [eventB], [⟨"b1", "eb", RelationshipType.primary⟩], []⟩

/-- New memory of owner `u`, captured at minute 15. -/
def memM0 : Memory := ⟨"m0", "u", 900000, none, none, none⟩

/-- Memory at minute 20, belonging to no event. -/
def memM1 : Memory := ⟨"m1", "u", 1200000, none, none, none⟩

/-- Memory at minute 10, already linked to event `e1`. -/
def memM2 : Memory := ⟨"m2", "u", 600000, none, none, none⟩

/-- The event `m2` already belongs to. -/
def eventE1 : Event :=
  ⟨"e1", "u", 600000, 600000, "E1", none, none, none, none, 0, 0, 0⟩

/-- Single-owner formation store where the *second* nearby memory belongs to
an event but the first does not. -/
def storeC3 : EventFormationService.FStore :=
  ⟨[memM0, memM1, memM2], [], [eventE1], [⟨"m2", "e1", RelationshipType.primary⟩], []⟩

/-- Clock for the resurfacing scenario: 365 days after the epoch. -/
def c4Now : Int := 365 * 86400000

/-- Event exactly 365 days old at `c4Now` (neutral title, no extras). -/
def ev365 : Event := ⟨"e365", "u", 0, 0, "x", none, none, none, none, 0, 0, 0⟩

/-- First event 10 days old at `c4Now`. -/
def ev10a : Event :=
  ⟨"e10a", "u", 355 * 86400000, 355 * 86400000, "y", none, none, none, none, 0, 0, 0⟩

/-- Second event 10 days old at `c4Now`. -/
def ev10b : Event :=
  ⟨"e10b", "u", 355 * 86400000, 355 * 86400000, "z", none, none, none, none, 0, 0, 0⟩

/-- Target memory whose latitude and longitude are the (perfectly valid)
coordinate `0` — JavaScript-falsy. -/
def memZeroZero : Memory := ⟨"t0", "u", 0, some 0, some 0, none⟩

/-- Candidate on the opposite side of the globe, captured at the same time. -/
def memFarAway : Memory := ⟨"f0", "u", 0, some 0, some 180, none⟩

/-- An event younger than the seven-day resurfacing floor. -/
def evYoung : Event := ⟨"ey", "u", 0, 0, "young", none, none, none, none, 0, 0, 0⟩

/-- Two-memory cluster fixture for the clustering witnesses. -/
def memP1 : Memory := ⟨"p1", "u", 0, none, none, none⟩

/-- Second member, captured 60 ms after `memP1` (well inside every window). -/
def memP2 : Memory := ⟨"p2", "u", 60, none, none, none⟩

/-- Scorer-input fixture: memory captured at the reference time, no context,
no tags, no people, similarity supplied per test. -/
def scorerInput (sim : ℚ) : HybridScorer.ScorerInput :=
  ⟨memP1, sim, none, [], [], some 0⟩

/-!
Theorems.  Each claim of the specification review is settled by exactly one
named theorem (plus a witness where the theorem carries hypotheses, or a
counterexample where the claim fails on the source).
-/

/-- C1: the claim says an inference-time upsert leaves an existing confirmed
place and its `confirmed` flag unchanged ("fill empty slots only").  On the
code, `COALESCE(EXCLUDED.col, memory_context.col)` lets the *new* value win
whenever it is non-null, and `confirmed` is bound as `input.confirmed ??
false`, which is never null: running context inference for memory `m1`
(confirmed place "Home" at `(1,2)`) with one similar neighbour whose place is
"Office" at `(5,6)` replaces the confirmed place with the inferred one and
resets `confirmed` to `false`. -/
theorem c1_inference_overwrites_confirmed_context :
    (c1Store.contexts.find? fun r => r.memoryId = "m1") =
      some ⟨"m1", none, some "Home", some 1, some 2, true⟩ ∧
    ((ContextInferenceService.inferAndStoreContext true ["n1"] "m1"
        c1Store).contexts.find? fun r => r.memoryId = "m1") =
      some ⟨"m1", none, some "Office", some 5, some 6, false⟩ := by
  with_unfolding_all decide

/-- C2: the clustering candidate pool (`listRecentWithContextInternal`) and
the existing-event lookup (`findByMemoryIdInternal`) carry no owner scope.
Processing alice's memory `a0` while bob's memory `b1` (captured ten minutes
apart) is linked to bob's event attaches `a0` to *bob's* event; removing
bob's memory flips the outcome to creating a fresh event — so another
owner's memories both enter the cluster and decide the formation outcome. -/
theorem c2_formation_pool_not_owner_scoped :
    ((EventFormationService.processMemory distZero synthFixed embedZero storeAB
        "a0" 600000).1.map fun r => (r.isNewEvent, r.event.userId)) =
      some (false, "bob") ∧
    memA.userId ≠ memB.userId ∧
    (EventFormationService.processMemory distZero synthFixed embedZero storeAB
        "a0" 600000).2.links =
      [⟨"b1", "eb", RelationshipType.primary⟩,
       ⟨"a0", "eb", RelationshipType.supporting⟩] ∧
    ((EventFormationService.processMemory distZero synthFixed embedZero storeA
        "a0" 600000).1.map fun r => r.isNewEvent) = some true := by
  with_unfolding_all decide

/-- C3: `findExistingEventsForMemories` documents "events that contain any
of the given memory IDs" but queries only `memoryIds[0]`.  With nearby
memories `[m1, m2]` where `m1` belongs to no event and `m2` is linked to
event `e1` (and lies 5 minutes from the new memory, well inside the window),
the orchestrator creates a brand-new event instead of attaching to `e1`. -/
theorem c3_only_first_nearby_memory_consulted :
    ((EventFormationService.processMemory distZero synthFixed embedZero storeC3
        "m0" 1200000).1.map fun r => (r.isNewEvent, r.linkedMemoryIds)) =
      some (true, ["m0", "m1", "m2"]) ∧
    (EventFormationService.processMemory distZero synthFixed embedZero storeC3
        "m0" 1200000).2.events.length = 2 ∧
    storeC3.links = [⟨"m2", "e1", RelationshipType.primary⟩] ∧
    |memM2.capturedAt - memM0.capturedAt| ≤ 90 * 60 * 1000 := by
  with_unfolding_all decide

/-- C4: with one eligible event exactly 365 days old (score dominated by the
+120 anniversary bonus) and two events 10 days old, the diversity guardrail
compares the start times of the first and last of the score-ordered top 3:
here that signed difference is −355 days, which is `< 24h`, so the uniform
random pick fires although the three candidates span 355 days — with
`Math.random() = 1/2` a 10-day event is selected, refuting the claim that
the 365-day event is always selected and that the random pick happens only
when the top 3 fall within a 24-hour window. -/
theorem c4_guardrail_fires_across_355_days :
    ((ResurfacingService.selectEventToResurf (Except.ok [ev365, ev10a, ev10b])
        c4Now (1 / 2)).map fun r => r.event.id) = some "e10a" ∧
    ResurfacingService.daysSinceEvent c4Now ev365 = 365 ∧
    ResurfacingService.daysSinceEvent c4Now ev10a = 10 ∧
    ResurfacingService.daysSinceEvent c4Now ev10b = 10 ∧
    ¬ (|ev365.startTime - ev10a.startTime| < 24 * 60 * 60 * 1000) := by
  with_unfolding_all decide

/-- C5 counterexample: 731 days is within 3 days of the 2-year mark (730),
so the claim assigns the +100 near-anniversary bonus on either side; the
source condition `Math.abs((daysSince % 365) - 365) <= 3` only holds for
`daysSince % 365 ∈ {362, 363, 364}`, so day 731 (remainder 1) gets no
anniversary bonus at all. -/
theorem c5_day_after_anniversary_gets_no_bonus :
    ResurfacingService.anniversaryBonus 731 = 0 ∧
    (365 : Int) ≤ 731 ∧ |(731 : Int) - 2 * 365| ≤ 3 := by
  decide

/-- C5 amended: the anniversary bonus is +120 at exact multiples of 365 (at
least a year old), +100 only in the three days *approaching* a yearly
multiple (`daysSince % 365 ≥ 362`), +50 at exact 30-day multiples (≥30) and
+25 at exact 7-day multiples (≥14); days shortly after a yearly multiple
receive no near-anniversary bonus. -/
theorem c5_amended_anniversary_bonus (d : Int) :
    ResurfacingService.anniversaryBonus d =
      if d % 365 = 0 ∧ 365 ≤ d then 120
      else if 362 ≤ d % 365 ∧ 365 ≤ d then 100
      else if d % 30 = 0 ∧ 30 ≤ d then 50
      else if d % 7 = 0 ∧ 14 ≤ d then 25
      else 0 := by
  have h1 : (|d % 365 - 365| ≤ 3) ↔ (362 ≤ d % 365) := by
    rw [abs_le]
    omega
  simp only [ResurfacingService.anniversaryBonus, h1]

/-- The Haversine distance from `(0°, 0°)` to `(0°, 180°)` is half the
Earth's circumference, `6371000 · π` meters. -/
theorem calculateDistance_antipodal : calculateDistance 0 0 0 180 = 6371000 * Real.pi := by
  simp only [calculateDistance, jsAtan2]
  norm_num
  ring

/-- C6 counterexample: the claim counts coordinate value `0` as "carrying
coordinates", so the pair `(0°,0°)` / `(0°,180°)` — half a world apart, far
beyond any 150 m threshold — must be rejected by the distance check.  The
source guard `targetMemory.latitude && …` treats the `0` latitude as absent
and skips the distance check entirely: the candidate is returned no matter
what the distance function answers (here an oracle answering 1000000 m,
consistent with the true great-circle distance `6371000 π > 150`). -/
theorem c6_zero_coordinate_skips_distance_check :
    EventClusteringService.findNearbyMemories distBig memZeroZero [memFarAway]
      none none = [memFarAway] ∧
    memZeroZero.latitude = some 0 ∧ memZeroZero.longitude = some 0 ∧
    memFarAway.latitude = some 0 ∧ memFarAway.longitude = some 180 ∧
    memFarAway.capturedAt = memZeroZero.capturedAt ∧
    (150 : ℚ) < distBig 0 0 0 180 ∧
    (150 : ℝ) < calculateDistance 0 0 0 180 := by
  refine ⟨?_, ?_, ?_, ?_, ?_, ?_, ?_, ?_⟩
  · with_unfolding_all decide
  · rfl
  · rfl
  · rfl
  · rfl
  · rfl
  · norm_num [distBig]
  · rw [calculateDistance_antipodal]
    nlinarith [Real.pi_gt_three]

/-- C6 amended: with the default parameters, `findNearbyMemories` excludes
the target itself, never returns a candidate captured more than 90 minutes
from the target, and — whenever all four coordinates are JavaScript-truthy
(present *and non-zero*; a coordinate equal to 0 is treated as absent) —
additionally requires the computed distance to be at most 150 m; a candidate
failing the truthiness test on either side is kept on the time filter
alone. -/
theorem c6_find_nearby_filter (dist : ℚ → ℚ → ℚ → ℚ → ℚ)
    (target m : Memory) (cands : List Memory)
    (h : m ∈ EventClusteringService.findNearbyMemories dist target cands none none) :
    m.id ≠ target.id ∧
    |((m.capturedAt : ℚ)) - (target.capturedAt : ℚ)| ≤ 90 * 60 * 1000 ∧
    ((truthyNum target.latitude && truthyNum target.longitude &&
        truthyNum m.latitude && truthyNum m.longitude) = true →
      dist (target.latitude.getD 0) (target.longitude.getD 0)
        (m.latitude.getD 0) (m.longitude.getD 0) ≤ 150) := by
  simp only [EventClusteringService.findNearbyMemories, jsOr, List.mem_filter] at h
  obtain ⟨-, hp⟩ := h
  have h1 : ¬ m.id = target.id := by
    intro he
    rw [if_pos he] at hp
    exact Bool.false_ne_true hp
  rw [if_neg h1] at hp
  have h2 : ¬ ((90 : ℚ) * 60 * 1000 < |((m.capturedAt : ℚ)) - (target.capturedAt : ℚ)|) := by
    intro hlt
    rw [if_pos hlt] at hp
    exact Bool.false_ne_true hp
  rw [if_neg h2] at hp
  refine ⟨h1, le_of_not_lt h2, ?_⟩
  intro hguard
  rw [if_pos hguard] at hp
  have h3 : ¬ ((150 : ℚ) < dist (target.latitude.getD 0) (target.longitude.getD 0)
      (m.latitude.getD 0) (m.longitude.getD 0)) := by
    intro hlt
    rw [if_pos hlt] at hp
    exact Bool.false_ne_true hp
  exact le_of_not_lt h3

/-- Witness for the C6 filter theorem at a concrete pair of memories
captured moments apart, without coordinates. -/
theorem c6_find_nearby_filter_witness :
    memP2.id ≠ memP1.id ∧
    |((memP2.capturedAt : ℚ)) - (memP1.capturedAt : ℚ)| ≤ 90 * 60 * 1000 ∧
    ((truthyNum memP1.latitude && truthyNum memP1.longitude &&
        truthyNum memP2.latitude && truthyNum memP2.longitude) = true →
      distBig (memP1.latitude.getD 0) (memP1.longitude.getD 0)
        (memP2.latitude.getD 0) (memP2.longitude.getD 0) ≤ 150) :=
  c6_find_nearby_filter distBig memP1 memP2 [memP2] (by
    rw [show EventClusteringService.findNearbyMemories distBig memP1 [memP2] none none
        = [memP2] from by with_unfolding_all decide]
    exact List.mem_singleton_self _)

set_option maxHeartbeats 1000000 in
/-- C8: the hybrid score is monotone in the embedding-similarity input with
every other signal held fixed, strictly increasing on `[0,1]`, and always
lies in `[0,1]` (the weights `0.45+0.20+0.20+0.10+0.05` sum to 1 and every
term is in `[0,1]`). -/
theorem c8_hybrid_score_monotone_bounded (now : Int)
    (inp : HybridScorer.ScorerInput) (s1 s2 : ℚ) :
    (s1 ≤ s2 →
      (HybridScorer.hybridScore now { inp with embeddingSimilarity := s1 }).score ≤
        (HybridScorer.hybridScore now { inp with embeddingSimilarity := s2 }).score) ∧
    (0 ≤ s1 → s1 < s2 → s2 ≤ 1 →
      (HybridScorer.hybridScore now { inp with embeddingSimilarity := s1 }).score <
        (HybridScorer.hybridScore now { inp with embeddingSimilarity := s2 }).score) ∧
    0 ≤ (HybridScorer.hybridScore now inp).score ∧
    (HybridScorer.hybridScore now inp).score ≤ 1 := by
  refine ⟨?_, ?_, ?_, ?_⟩
  · intro h
    have hmm : max 0 (min 1 s1) ≤ max 0 (min 1 s2) :=
      max_le_max le_rfl (min_le_min le_rfl h)
    simp only [HybridScorer.hybridScore]
    have := mul_le_mul_of_nonneg_left hmm (by norm_num : (0 : ℚ) ≤ 0.45)
    linarith
  · intro h0 hlt h1
    have hc1 : max 0 (min 1 s1) = s1 := by
      rw [min_eq_right (le_of_lt (lt_of_lt_of_le hlt h1)), max_eq_right h0]
    have hc2 : max 0 (min 1 s2) = s2 := by
      rw [min_eq_right h1, max_eq_right (le_of_lt (lt_of_le_of_lt h0 hlt))]
    simp only [HybridScorer.hybridScore, hc1, hc2]
    nlinarith
  · have he0 : (0 : ℚ) ≤ max 0 (min 1 inp.embeddingSimilarity) := le_max_left _ _
    simp only [HybridScorer.hybridScore]
    rcases inp.context with - | c <;> dsimp only <;> split_ifs <;> nlinarith
  · have he1 : max 0 (min 1 inp.embeddingSimilarity) ≤ 1 :=
      max_le (by norm_num) (min_le_left _ _)
    have he0 : (0 : ℚ) ≤ max 0 (min 1 inp.embeddingSimilarity) := le_max_left _ _
    simp only [HybridScorer.hybridScore]
    rcases inp.context with - | c <;> dsimp only <;> split_ifs <;> nlinarith

/-- Witness for the hybrid-score theorem: with no context, tags or people and
reference time equal to the capture time, similarity 0 scores strictly below
similarity 1, and the score is within bounds. -/
theorem c8_hybrid_score_witness :
    (HybridScorer.hybridScore 0 { scorerInput 0 with embeddingSimilarity := 0 }).score <
      (HybridScorer.hybridScore 0 { scorerInput 0 with embeddingSimilarity := 1 }).score ∧
    0 ≤ (HybridScorer.hybridScore 0 (scorerInput 0)).score ∧
    (HybridScorer.hybridScore 0 (scorerInput 0)).score ≤ 1 :=
  ⟨(c8_hybrid_score_monotone_bounded 0 (scorerInput 0) 0 1).2.1 le_rfl
      (by norm_num) le_rfl,
    (c8_hybrid_score_monotone_bounded 0 (scorerInput 0) 0 1).2.2.1,
    (c8_hybrid_score_monotone_bounded 0 (scorerInput 0) 0 1).2.2.2⟩

/-- C9: the parser applies its rules in priority order — the "first time"
query hits the first rule (`type = first`, ascending sort), "coffee last
week" reaches the explicit-range rule (`type = between` with the start seven
days before now and the end now), and a query matching none of the pattern
rules yields `type = none` with descending (newest-first) sort. -/
theorem c9_temporal_parser_priority (q : String)
    (h : TemporalParser.matchesAnyTemporalPattern q = false) :
    TemporalParser.parse "what was the first time I went hiking" =
      ⟨.first, none, none, none, some "first time".data, .asc⟩ ∧
    TemporalParser.parse "coffee last week" =
      ⟨.between, none, some (.minusDays .now 7), some .now,
        some "last week".data, .desc⟩ ∧
    TemporalParser.parse q = ⟨.none, none, none, none, none, .desc⟩ := by
  refine ⟨by with_unfolding_all decide, by with_unfolding_all decide, ?_⟩
  simp only [TemporalParser.matchesAnyTemporalPattern, Bool.or_eq_false_iff] at h
  obtain ⟨⟨⟨⟨⟨⟨h1, h2⟩, h3⟩, h4⟩, h5⟩, h6⟩, h7⟩ := h
  replace h3 : TemporalParser.scanCapture "before ".data (lowerData q) = none :=
    Option.not_isSome_iff_eq_none.mp (by simp [h3])
  replace h4 : TemporalParser.scanCapture "after ".data (lowerData q) = none :=
    Option.not_isSome_iff_eq_none.mp (by simp [h4])
  replace h5 : TemporalParser.scanCaptureAny
      ["around ".data, "near ".data, "about ".data] (lowerData q) = none :=
    Option.not_isSome_iff_eq_none.mp (by simp [h5])
  replace h6 : TemporalParser.parseTimeRange (lowerData q) = none :=
    Option.not_isSome_iff_eq_none.mp (by simp [h6])
  simp [TemporalParser.parse, h1, h2, h3, h4, h5, h6, h7]

/-- Witness for the parser theorem: the query "pizza" matches no pattern. -/
theorem c9_temporal_parser_witness :
    TemporalParser.parse "what was the first time I went hiking" =
      ⟨.first, none, none, none, some "first time".data, .asc⟩ ∧
    TemporalParser.parse "coffee last week" =
      ⟨.between, none, some (.minusDays .now 7), some .now,
        some "last week".data, .desc⟩ ∧
    TemporalParser.parse "pizza" = ⟨.none, none, none, none, none, .desc⟩ :=
  c9_temporal_parser_priority "pizza" (by with_unfolding_all decide)

/-- C10: resurfacing selection never propagates a failure — a rejected
event-store query yields `null`, and so does an event list in which no event
is strictly older than seven days; the operation reads the store but never
writes it (its embedding is a pure function of the query result). -/
theorem c10_resurfacing_returns_null_safely :
    (∀ (msg : String) (now : Int) (rand : ℚ),
      ResurfacingService.selectEventToResurf (Except.error msg) now rand = none) ∧
    (∀ (events : List Event) (now : Int) (rand : ℚ),
      (∀ e ∈ events, ¬ (e.startTime < now - 7 * dayMs)) →
      ResurfacingService.selectEventToResurf (Except.ok events) now rand = none) := by
  constructor
  · intro msg now rand
    rfl
  · intro events now rand h
    simp only [ResurfacingService.selectEventToResurf]
    rw [List.filter_eq_nil_iff.mpr (by simpa using h)]
    simp

/-- Witness for the resurfacing-safety theorem: a failed query and a store
whose only event started now. -/
theorem c10_resurfacing_returns_null_safely_witness :
    ResurfacingService.selectEventToResurf (Except.error "boom") 0 (1 / 2) = none ∧
    ResurfacingService.selectEventToResurf (Except.ok [evYoung]) 0 (1 / 2) = none :=
  ⟨c10_resurfacing_returns_null_safely.1 "boom" 0 (1 / 2),
    c10_resurfacing_returns_null_safely.2 [evYoung] 0 (1 / 2)
      (by with_unfolding_all decide)⟩

/-- A `foldl` of `max` stays below a bound iff the seed and every
contribution do. -/
theorem foldl_max_le_iff {α : Type} (f : α → ℚ) (c : ℚ) (l : List α) (init : ℚ) :
    l.foldl (fun acc x => max acc (f x)) init ≤ c ↔
      init ≤ c ∧ ∀ x ∈ l, f x ≤ c := by
  induction l generalizing init with
  | nil => simp
  | cons a t ih =>
    simp only [List.foldl_cons, ih, max_le_iff, List.mem_cons]
    constructor
    · rintro ⟨⟨hi, ha⟩, ht⟩
      exact ⟨hi, fun x hx => by rcases hx with rfl | hx; exact ha; exact ht x hx⟩
    · rintro ⟨hi, hall⟩
      exact ⟨⟨hi, hall a (Or.inl rfl)⟩, fun x hx => hall x (Or.inr hx)⟩

/-- The accumulated maximum pairwise distance is below a (non-negative)
bound iff every ordered pair of list members is. -/
theorem maxPairwiseDist_le_iff (dist : ℚ → ℚ → ℚ → ℚ → ℚ) (c : ℚ) (hc : 0 ≤ c)
    (l : List Memory) :
    EventClusteringService.maxPairwiseDist dist l ≤ c ↔
      l.Pairwise fun a b =>
        dist (a.latitude.getD 0) (a.longitude.getD 0)
          (b.latitude.getD 0) (b.longitude.getD 0) ≤ c := by
  induction l with
  | nil =>
    simpa [EventClusteringService.maxPairwiseDist] using hc
  | cons m rest ih =>
    simp only [EventClusteringService.maxPairwiseDist, max_le_iff, ih,
      List.pairwise_cons, foldl_max_le_iff]
    constructor
    · rintro ⟨⟨-, hall⟩, hrec⟩
      exact ⟨hall, hrec⟩
    · rintro ⟨hall, hrec⟩
      exact ⟨⟨hc, hall⟩, hrec⟩

/-- The head of the ascending insertion sort of a non-empty integer list is
its minimum. -/
theorem insertionSort_headD_eq_min (l : List Int) (h : l ≠ []) :
    (l.insertionSort (· ≤ ·)).headD 0 = l.min?.getD 0 := by
  haveI : Std.Antisymm (fun x y : Int => x ≤ y) := ⟨fun h h' => le_antisymm h h'⟩
  have hperm := List.perm_insertionSort (· ≤ ·) l
  have hsorted := List.sorted_insertionSort (· ≤ ·) l
  cases hs : l.insertionSort (· ≤ ·) with
  | nil =>
    rw [hs] at hperm
    exact absurd hperm.symm.eq_nil h
  | cons a t =>
    rw [hs] at hperm hsorted
    have hmin : l.min? = some a := by
      refine (List.min?_eq_some_iff (fun a => le_refl a) (fun a b => min_choice a b)
        (fun a b c => le_min_iff)).mpr ⟨hperm.mem_iff.mp (List.mem_cons_self a t), ?_⟩
      intro b hb
      rcases List.mem_cons.mp (hperm.mem_iff.mpr hb) with rfl | hb'
      · exact le_refl b
      · exact List.rel_of_sorted_cons hsorted b hb'
    rw [hmin]
    rfl

/-- The last element of the ascending insertion sort of a non-empty integer
list is its maximum. -/
theorem insertionSort_getLastD_eq_max (l : List Int) (h : l ≠ []) :
    (l.insertionSort (· ≤ ·)).getLastD 0 = l.max?.getD 0 := by
  haveI : Std.Antisymm (fun x y : Int => x ≤ y) := ⟨fun h h' => le_antisymm h h'⟩
  have hperm := List.perm_insertionSort (· ≤ ·) l
  have hsorted := List.sorted_insertionSort (· ≤ ·) l
  rcases List.eq_nil_or_concat (l.insertionSort (· ≤ ·)) with hs | ⟨ys, a, hs⟩
  · rw [hs] at hperm
    exact absurd hperm.symm.eq_nil h
  · rw [List.concat_eq_append] at hs
    rw [hs] at hperm hsorted
    have hcross := (List.pairwise_append.mp hsorted).2.2
    have hmax : l.max? = some a := by
      refine (List.max?_eq_some_iff (fun a => le_refl a) (fun a b => max_choice a b)
        (fun a b c => max_le_iff)).mpr
        ⟨hperm.mem_iff.mp (List.mem_append.mpr (Or.inr (List.mem_singleton_self a))), ?_⟩
      intro b hb
      rcases List.mem_append.mp (hperm.mem_iff.mpr hb) with hb' | hb'
      · exact hcross b hb' a (List.mem_singleton_self a)
      · rw [List.mem_singleton.mp hb']
    rw [hs, hmax, List.getLastD_concat]
    rfl

set_option maxHeartbeats 1000000 in
/-- C7: `analyzeCluster` returns confidence 0 on the empty list and 0.7 on
any singleton; for `N ≥ 2` the confidence is the base 0.5 plus 0.2 when
`N ≥ 3` and a further 0.1 when `N ≥ 5`, plus a time bonus (0.2 when the
capture-time span — maximum minus minimum — is at most 30 minutes, else 0.1
when at most 60), plus a location bonus over the members carrying truthy
coordinates (when at least 2 of them: 0.2 when the maximum pairwise distance
is at most 50 m, else 0.1 when at most 100 m), clamped to `[0,1]`;
`isTightCluster` holds iff the confidence reaches 0.7, and the maximum
pairwise distance is below a bound iff every pair of coordinate-carrying
members is. -/
theorem c7_analyze_cluster_spec (dist : ℚ → ℚ → ℚ → ℚ → ℚ) (m : Memory)
    (ms : List Memory) (h2 : 2 ≤ ms.length) :
    (EventClusteringService.analyzeCluster dist []).clusterConfidence = 0 ∧
    (EventClusteringService.analyzeCluster dist [m]).clusterConfidence = 0.7 ∧
    ((EventClusteringService.analyzeCluster dist ms).isTightCluster = true ↔
      (0.7 : ℚ) ≤ (EventClusteringService.analyzeCluster dist ms).clusterConfidence) ∧
    (0 ≤ (EventClusteringService.analyzeCluster dist ms).clusterConfidence ∧
      (EventClusteringService.analyzeCluster dist ms).clusterConfidence ≤ 1) ∧
    (EventClusteringService.analyzeCluster dist ms).clusterConfidence =
      min (0.5
        + (if 3 ≤ ms.length then (0.2 : ℚ) else 0)
        + (if 5 ≤ ms.length then (0.1 : ℚ) else 0)
        + (if ((((ms.map (·.capturedAt)).max?.getD 0
                - (ms.map (·.capturedAt)).min?.getD 0 : Int) : ℚ) / (60 * 1000)) ≤ 30
            then (0.2 : ℚ)
           else if ((((ms.map (·.capturedAt)).max?.getD 0
                - (ms.map (·.capturedAt)).min?.getD 0 : Int) : ℚ) / (60 * 1000)) ≤ 60
            then (0.1 : ℚ) else 0)
        + (if 2 ≤ (ms.filter fun mm => truthyNum mm.latitude && truthyNum mm.longitude).length
            then
              if EventClusteringService.maxPairwiseDist dist
                  (ms.filter fun mm => truthyNum mm.latitude && truthyNum mm.longitude) ≤ 50
                then (0.2 : ℚ)
              else if EventClusteringService.maxPairwiseDist dist
                  (ms.filter fun mm => truthyNum mm.latitude && truthyNum mm.longitude) ≤ 100
                then (0.1 : ℚ) else 0
            else 0)) 1 ∧
    (∀ c : ℚ, 0 ≤ c →
      (EventClusteringService.maxPairwiseDist dist
          (ms.filter fun mm => truthyNum mm.latitude && truthyNum mm.longitude) ≤ c ↔
        (ms.filter fun mm => truthyNum mm.latitude && truthyNum mm.longitude).Pairwise
          fun a b => dist (a.latitude.getD 0) (a.longitude.getD 0)
            (b.latitude.getD 0) (b.longitude.getD 0) ≤ c)) := by
  have hlen0 : ¬ ms.length = 0 := by omega
  have hlen1 : ¬ ms.length = 1 := by omega
  have hne : ms.map (·.capturedAt) ≠ [] := by
    intro hnil
    rw [List.map_eq_nil_iff] at hnil
    rw [hnil] at h2
    simp at h2
  have hmain :
      (EventClusteringService.analyzeCluster dist ms).clusterConfidence =
        min (0.5
          + (if 3 ≤ ms.length then (0.2 : ℚ) else 0)
          + (if 5 ≤ ms.length then (0.1 : ℚ) else 0)
          + (if ((((ms.map (·.capturedAt)).max?.getD 0
                  - (ms.map (·.capturedAt)).min?.getD 0 : Int) : ℚ) / (60 * 1000)) ≤ 30
              then (0.2 : ℚ)
             else if ((((ms.map (·.capturedAt)).max?.getD 0
                  - (ms.map (·.capturedAt)).min?.getD 0 : Int) : ℚ) / (60 * 1000)) ≤ 60
              then (0.1 : ℚ) else 0)
          + (if 2 ≤ (ms.filter fun mm => truthyNum mm.latitude && truthyNum mm.longitude).length
              then
                if EventClusteringService.maxPairwiseDist dist
                    (ms.filter fun mm => truthyNum mm.latitude && truthyNum mm.longitude) ≤ 50
                  then (0.2 : ℚ)
                else if EventClusteringService.maxPairwiseDist dist
                    (ms.filter fun mm => truthyNum mm.latitude && truthyNum mm.longitude) ≤ 100
                  then (0.1 : ℚ) else 0
              else 0)) 1 := by
    simp only [EventClusteringService.analyzeCluster, if_neg hlen0, if_neg hlen1]
    rw [insertionSort_getLastD_eq_max _ hne, insertionSort_headD_eq_min _ hne]
    congr 1
    split_ifs <;> norm_num
  refine ⟨rfl, rfl, ?_, ?_, hmain, ?_⟩
  · simp only [EventClusteringService.analyzeCluster, if_neg hlen0, if_neg hlen1]
    exact decide_eq_true_iff
  · constructor
    · rw [hmain]
      apply le_min _ (by norm_num)
      split_ifs <;> norm_num
    · rw [hmain]
      exact min_le_right _ _
  · intro c hc
    exact maxPairwiseDist_le_iff dist c hc _

/-- Witness for the clustering theorem at the two-member cluster
`[memP1, memP2]` (60 ms apart, no coordinates): tightness is equivalent to
the 0.7 threshold, and the confidence evaluates to exactly 0.7. -/
theorem c7_analyze_cluster_witness :
    ((EventClusteringService.analyzeCluster distBig [memP1, memP2]).isTightCluster = true ↔
      (0.7 : ℚ) ≤ (EventClusteringService.analyzeCluster distBig
        [memP1, memP2]).clusterConfidence) ∧
    (EventClusteringService.analyzeCluster distBig [memP1]).clusterConfidence = 0.7 ∧
    (EventClusteringService.analyzeCluster distBig [memP1, memP2]).clusterConfidence = 0.7 :=
  ⟨(c7_analyze_cluster_spec distBig memP1 [memP1, memP2] (by decide)).2.2.1,
    (c7_analyze_cluster_spec distBig memP1 [memP1, memP2] (by decide)).2.1,
    by with_unfolding_all decide⟩

end Glimps
